import Mathlib

/-!
Verification development for the omni8task MRI ingestion pipeline.

The definitions below are a shallow embedding of the orchestration code in
src/pipeline.py and the quality-assessment aggregation in
src/quality_assessment.py.  External numeric collaborators (image loading,
preprocessing, registration, metric computation) are abstracted as inputs:
a per-file run outcome oracle for the pipeline, and rational metric values
for the quality assessment.  A handful of definitions are explicitly marked
as modelled from the specification text; they describe components
(MarkerStore, ReadinessDetector) that the specification document describes
but that do not exist anywhere in the source, and they are used only to
state claims for comparison against the embedded source behaviour.
-/

/-! ## String and path helpers (Python pathlib semantics) -/

/-- Last path component of a path string, as in Python Path.name:
everything after the final slash. -/
def pathName (p : String) : String :=
  String.mk (p.toList.foldl (fun acc c => if c = '/' then [] else acc ++ [c]) [])

/-- Index of the last dot in a character list, if any. -/
def lastDotIdx (l : List Char) : Option Nat :=
  match l.reverse.findIdx? (fun c => c = '.') with
  | none => none
  | some j => some (l.length - 1 - j)

/-- Python pathlib stem of a file name: the name minus its last extension.
The extension is dropped only when the last dot is neither the first nor the
last character of the name, exactly as in pathlib. -/
def pyStem (name : String) : String :=
  let l := name.toList
  match lastDotIdx l with
  | none => name
  | some i => if 0 < i ∧ i < l.length - 1 then String.mk (l.take i) else name

/-- Python pathlib suffix of a file name: the last extension including the
dot, or the empty string, exactly as in pathlib. -/
def pySfx (name : String) : String :=
  let l := name.toList
  match lastDotIdx l with
  | none => ""
  | some i => if 0 < i ∧ i < l.length - 1 then String.mk (l.drop i) else ""

/-- Boolean test that the string s ends with the string t. -/
def strEndsWith (s t : String) : Bool :=
  s.toList.reverse.take t.toList.length == t.toList.reverse

/-- Boolean test that pat occurs as a contiguous subsequence of l. -/
def containsSeq (pat : List Char) : List Char → Bool
  | [] => pat.isEmpty
  | c :: rest => (List.take pat.length (c :: rest) == pat) || containsSeq pat rest

/-- Name match for the glob pattern used by both drivers in pipeline.py
(input_dir.glob of star dot nii star): the name contains ".nii". -/
def matchesNiiGlob (name : String) : Bool :=
  containsSeq ".nii".toList name.toList

/-! ## Output artifact naming (pipeline.py, process_single_file, lines 100 and 109) -/

/-- Output image path name written by process_single_file (line 100):
the stem of the input file name followed by a fixed suffix string; the
written image extension is always ".nii.gz". -/
def outputName (inputPath : String) : String :=
  pyStem (pathName inputPath) ++ "_skull_stripped.nii.gz"

/-- Quality report path name written by process_single_file (line 109). -/
def reportName (inputPath : String) : String :=
  pyStem (pathName inputPath) ++ "_quality_report.txt"

/-! ## One run of process_single_file (pipeline.py lines 63-130)

The body performs, in order: open and parse the config file (line 75), load
the image (line 80), preprocess (line 85), skull strip (line 93), save the
output image (line 102), assess quality (line 106), write the report file
(lines 112-128).  Any stage may raise; the run is modelled by an outcome
oracle saying either that all stages completed or that a given 1-based
stage raised, in which case exactly the writes of the earlier stages
happened. -/

/-- Outcome of one process_single_file run: every stage completed, or the
given 1-based stage raised (1 config parse, 2 image load, 3 preprocess,
4 skull strip, 5 save image, 6 assess, 7 write report). -/
inductive RunOutcome
  | ok
  | failAt (stage : Nat)
deriving DecidableEq

/-- Number of stages of process_single_file that ran to completion. -/
def stagesDone : RunOutcome → Nat
  | .ok => 7
  | .failAt k => k - 1

/-- True when the run raised, i.e. the caller takes its except branch. -/
def psfRaises : RunOutcome → Bool
  | .ok => false
  | .failAt _ => true

/-- Observable action of one pipeline run: the per-run config file open
(line 75) or a file written into the output directory. -/
inductive PAct
  | openConfig
  | writeFile (name : String)
deriving DecidableEq

/-- File names written into the output directory by one run of
process_single_file: the output image after stage 5, the report after
stage 7; a run that raises earlier leaves only the earlier writes. -/
def psfWrites (inputPath : String) (o : RunOutcome) : List String :=
  (if 5 ≤ stagesDone o then [outputName inputPath] else []) ++
  (if 7 ≤ stagesDone o then [reportName inputPath] else [])

/-- Action trace of one run of process_single_file: the config file is
opened and parsed first on every invocation (line 75), then the writes of
the completed stages happen. -/
def process_single_file (inputPath : String) (o : RunOutcome) : List PAct :=
  PAct.openConfig :: (psfWrites inputPath o).map PAct.writeFile

/-- Extracts the written file name from an action, if it is a write. -/
def actWrite : PAct → Option String
  | .openConfig => none
  | .writeFile n => some n

/-! ## Quality assessment aggregation (quality_assessment.py, assess_quality)

The five base metric computations and the two optional comparisons are
floating-point numeric code treated as opaque collaborators; their values
enter here as rational inputs.  The aggregation logic of lines 321-372 is
embedded literally: the five base pass flags with their source thresholds,
the two optional flags present only when the respective optional image was
supplied, and the final counts and overall verdict computed from the list
of exactly the five base flags. -/

/-- Metric values for one assessed image, as produced by the five base
metric functions of quality_assessment.py. -/
structure QCMetrics where
  coverage : ℚ
  volume : ℚ
  numComponents : Nat
  edgeDensity : ℚ
  intensityStd : ℚ

/-- Result dictionary of assess_quality, restricted to the pass flags and
the summary fields; the two optional flags are none exactly when the
corresponding optional argument was not supplied. -/
structure QCResult where
  coverage_ok : Bool
  volume_ok : Bool
  components_ok : Bool
  edge_density_ok : Bool
  intensity_ok : Bool
  registration_ok : Option Bool
  dice_ok : Option Bool
  passed_checks : Nat
  total_checks : Nat
  overall_pass : Bool
deriving DecidableEq

/-- Embedding of assess_quality (quality_assessment.py lines 305-378).
Thresholds are the source literals: coverage strictly between 5 and 40,
volume strictly between 800 and 2000, exactly one connected component,
edge density below 50, intensity standard deviation above 0.01; the
optional mutual-information flag uses threshold 0.3 and the optional Dice
flag 0.85.  The checks list of lines 362-368 holds exactly the five base
flags, and lines 370-372 compute the counts and the overall verdict,
allowing one failure. -/
def assess_quality (m : QCMetrics) (mi : Option ℚ) (dice : Option ℚ) : QCResult :=
  let coverage_ok : Bool := decide (5 < m.coverage ∧ m.coverage < 40)
  let volume_ok : Bool := decide (800 < m.volume ∧ m.volume < 2000)
  let components_ok : Bool := m.numComponents == 1
  let edge_density_ok : Bool := decide (m.edgeDensity < 50)
  let intensity_ok : Bool := decide (1/100 < m.intensityStd)
  let registration_ok := mi.map (fun v => decide (3/10 < v))
  let dice_ok := dice.map (fun v => decide (85/100 < v))
  let checks := [coverage_ok, volume_ok, components_ok, edge_density_ok, intensity_ok]
  { coverage_ok := coverage_ok
    volume_ok := volume_ok
    components_ok := components_ok
    edge_density_ok := edge_density_ok
    intensity_ok := intensity_ok
    registration_ok := registration_ok
    dice_ok := dice_ok
    passed_checks := checks.count true
    total_checks := checks.length
    overall_pass := decide (checks.length - 1 ≤ checks.count true) }

/-! ## Watcher event handler (pipeline.py, MRIFileHandler.on_created, lines 30-60)

The handler keeps two in-memory sets of path strings, processing and
processed (lines 27-28).  On a creation event it returns for directory
events (line 32), returns for names that are neither a ".nii" file nor a
".nii.gz" file (line 38), drops paths already in either set (line 43),
sleeps a fixed two seconds (line 49), adds the path to processing
(line 51), runs process_single_file inside try, adds the path to processed
only on success (line 55), and in the finally block discards the path from
processing (line 60). -/

/-- In-memory state of MRIFileHandler: the processing and processed sets. -/
structure WatcherState where
  processing : Finset String
  processed : Finset String
deriving DecidableEq

/-- A filesystem creation event as delivered by watchdog. -/
structure Event where
  src_path : String
  is_directory : Bool
deriving DecidableEq

/-- Labels for the successive steps the handler body executes, in source
order; wait marks the fixed sleep at line 49 and acquire the insertion
into the processing set at line 51. -/
inductive HStep
  | dirCheck
  | extCheck
  | dupCheck
  | wait
  | acquire
  | runPipeline
  | markDone
  | release
deriving DecidableEq

/-- Result of one on_created invocation: the new handler state, the
pipeline actions performed, and the ordered trace of executed steps. -/
structure HandlerResult where
  state : WatcherState
  acts : List PAct
  trace : List HStep
deriving DecidableEq

/-- Embedding of MRIFileHandler.on_created.  The run outcome of the single
processing attempt enters as an oracle; on a raising run the except branch
logs and the finally branch still discards the path from processing. -/
def on_created (s : WatcherState) (e : Event) (o : RunOutcome) : HandlerResult :=
  if e.is_directory = true then
    ⟨s, [], [.dirCheck]⟩
  else if ¬ (pySfx (pathName e.src_path) = ".nii" ∨
             strEndsWith (pathName e.src_path) ".nii.gz" = true) then
    ⟨s, [], [.dirCheck, .extCheck]⟩
  else if e.src_path ∈ s.processing ∨ e.src_path ∈ s.processed then
    ⟨s, [], [.dirCheck, .extCheck, .dupCheck]⟩
  else if psfRaises o = true then
    ⟨⟨(insert e.src_path s.processing).erase e.src_path, s.processed⟩,
     process_single_file e.src_path o,
     [.dirCheck, .extCheck, .dupCheck, .wait, .acquire, .runPipeline, .release]⟩
  else
    ⟨⟨(insert e.src_path s.processing).erase e.src_path,
      insert e.src_path s.processed⟩,
     process_single_file e.src_path o,
     [.dirCheck, .extCheck, .dupCheck, .wait, .acquire, .runPipeline, .markDone,
      .release]⟩

/-- The conditions under which on_created commits to processing the event:
not a directory, a recognized volume name, and not already a member of
either in-memory set. -/
def acceptsEvent (s : WatcherState) (e : Event) : Prop :=
  e.is_directory = false ∧
  (pySfx (pathName e.src_path) = ".nii" ∨
   strEndsWith (pathName e.src_path) ".nii.gz" = true) ∧
  ¬ (e.src_path ∈ s.processing ∨ e.src_path ∈ s.processed)

instance (s : WatcherState) (e : Event) : Decidable (acceptsEvent s e) := by
  unfold acceptsEvent
  infer_instance

/-- First occurrence of a occurs strictly before the first occurrence of b
in the list, both occurring. -/
def occursBefore (a b : HStep) : List HStep → Bool
  | [] => false
  | c :: rest =>
      if c = b then false
      else if c = a then rest.contains b
      else occursBefore a b rest

/-! ## Batch driver (pipeline.py, batch_mode, lines 188-231)

The driver lists the input directory once through the ".nii" glob, then
runs every listed file through process_single_file in a per-file try,
counting successes and failures; nothing consults the output directory
before processing and no outcome is persisted anywhere. -/

/-- Result of a batch pass: the two counters of lines 214-215 and the
concatenated action trace of the per-file runs. -/
structure BatchResult where
  successCount : Nat
  failCount : Nat
  acts : List PAct
deriving DecidableEq

/-- The per-file loop of batch_mode (lines 217-224), structurally recursive
over the recognized listing, preserving the left-to-right action order. -/
def batchRun (outcome : String → RunOutcome) : List String → BatchResult
  | [] => ⟨0, 0, []⟩
  | f :: rest =>
      let o := outcome f
      let r := batchRun outcome rest
      if psfRaises o = true then
        ⟨r.successCount, r.failCount + 1, process_single_file f o ++ r.acts⟩
      else
        ⟨r.successCount + 1, r.failCount, process_single_file f o ++ r.acts⟩

/-- Embedding of batch_mode: filter the directory listing through the glob,
then run the per-file loop.  The empty-listing early return of line 207
yields the same empty summary as the fold. -/
def batch_mode (listing : List String) (outcome : String → RunOutcome) : BatchResult :=
  batchRun outcome (listing.filter (fun p => matchesNiiGlob (pathName p)))

/-- File names a batch pass writes into the output directory, in order. -/
def batchWrites (listing : List String) (outcome : String → RunOutcome) : List String :=
  (batch_mode listing outcome).acts.filterMap actWrite

/-- Number of config file opens performed across an action trace. -/
def countConfigLoads (acts : List PAct) : Nat :=
  acts.countP (fun a => a = PAct.openConfig)

/-! ## Interleaving model of the acceptance steps (claim about concurrency)

The watchdog observer delivers events on a separate execution context, so
two on_created invocations for the same path can interleave.  The handler
acceptance protocol consists of two distinct steps on the shared sets: the
membership test of line 43 and the insertion of line 51, with the two
second sleep of line 49 between them.  Each thread is a program over these
two steps; a schedule interleaves the threads. -/

/-- Phase of one handler invocation inside the acceptance protocol. -/
inductive ThreadPhase
  | start
  | passedCheck
  | running
  | dropped
deriving DecidableEq

/-- One atomic step of a handler invocation for path p: from start it
executes the line 43 membership test, from passedCheck it executes the
line 51 insertion and begins processing. -/
def threadStep (p : String) (st : WatcherState) :
    ThreadPhase → WatcherState × ThreadPhase
  | .start =>
      if p ∈ st.processing ∨ p ∈ st.processed then (st, .dropped)
      else (st, .passedCheck)
  | .passedCheck => (⟨insert p st.processing, st.processed⟩, .running)
  | .running => (st, .running)
  | .dropped => (st, .dropped)

/-- Shared sets plus the phases of two concurrent handler invocations for
the same path. -/
structure ConcState where
  sets : WatcherState
  ph1 : ThreadPhase
  ph2 : ThreadPhase
deriving DecidableEq

/-- Run one scheduled step: false steps the first thread, true the second. -/
def schedStep (p : String) (st : ConcState) (tid : Bool) : ConcState :=
  if tid = true then
    let r := threadStep p st.sets st.ph2
    ⟨r.1, st.ph1, r.2⟩
  else
    let r := threadStep p st.sets st.ph1
    ⟨r.1, r.2, st.ph2⟩

/-- Run a whole schedule of interleaved steps. -/
def runSched (p : String) (sched : List Bool) (st : ConcState) : ConcState :=
  sched.foldl (schedStep p) st

/-- Number of the two invocations that ended up processing the file. -/
def succCount (st : ConcState) : Nat :=
  (if st.ph1 = ThreadPhase.running then 1 else 0) +
  (if st.ph2 = ThreadPhase.running then 1 else 0)

/-! ## Definitions modelled from the specification text

The specification describes a durable MarkerStore and a size-polling
ReadinessDetector.  Neither exists anywhere in the source; the definitions
below follow the specification words and serve only to state those claims
against the embedded source behaviour. -/

/-- Modelled from the spec: MarkerStore success marker, a reserved hidden
name derived from the input name with a processed tag (section 6 of the
spec); absent from the source. -/
def specSuccessMarkerName (name : String) : String :=
  "." ++ name ++ ".processed"

/-- Modelled from the spec: MarkerStore error marker, similarly tagged
with error; absent from the source. -/
def specErrorMarkerName (name : String) : String :=
  "." ++ name ++ ".error"

/-- Modelled from the spec: HasOutcome of the MarkerStore, true when either
marker for the name is present among the output directory entries; absent
from the source. -/
def specHasOutcome (outDir : List String) (name : String) : Bool :=
  outDir.contains (specSuccessMarkerName name) ||
  outDir.contains (specErrorMarkerName name)

/-- Modelled from the spec: recognizer for marker file names, by the
reserved tag suffixes of section 6; absent from the source. -/
def isSpecMarkerName (s : String) : Bool :=
  strEndsWith s ".processed" || strEndsWith s ".error"

/-- Verdict of the readiness detector described by the spec. -/
inductive WaitResult
  | ready
  | timedOut
deriving DecidableEq

/-- The write-completion wait as implemented (pipeline.py line 49): an
unconditional fixed sleep of two seconds; the file size is never read and
the handler always proceeds to processing afterwards.  The result is the
wait duration in seconds paired with the proceed verdict. -/
def watcherWait (_sizes : Nat → Nat) : Nat × WaitResult :=
  (2, WaitResult.ready)

/-- Modelled from the spec: the polling loop of the ReadinessDetector of
section 4.1, from poll index i with the given remaining poll budget; ready
as soon as the size is identical and strictly positive across two
consecutive polls, timed out when the budget elapses; absent from the
source. -/
def specDetectFrom (sizes : Nat → Nat) (i : Nat) : Nat → WaitResult
  | 0 => WaitResult.timedOut
  | fuel + 1 =>
      if 0 < sizes i ∧ sizes i = sizes (i + 1) then WaitResult.ready
      else specDetectFrom sizes (i + 1) fuel

/-- Modelled from the spec: the ReadinessDetector of section 4.1, polling
the size trace from the start with a timeout ceiling of the given number
of polls; absent from the source. -/
def specReadinessDetector (sizes : Nat → Nat) (timeoutPolls : Nat) : WaitResult :=
  specDetectFrom sizes 0 timeoutPolls

/-! ## Helper lemmas -/

/-- Appending in front of a sufficiently long tail does not change an
ends-with test against a short pattern. -/
theorem strEndsWith_append (s t pat : String)
    (h : pat.toList.length ≤ t.toList.length) :
    strEndsWith (s ++ t) pat = strEndsWith t pat := by
  unfold strEndsWith
  have hd : (s ++ t).toList = s.toList ++ t.toList := by simp [String.toList]
  rw [hd, List.reverse_append, List.take_append_of_le_length (by simpa using h)]

/-- The output image name never looks like a spec marker name. -/
theorem outputName_no_marker (p : String) :
    isSpecMarkerName (outputName p) = false := by
  unfold isSpecMarkerName outputName
  rw [strEndsWith_append _ _ _ (by decide), strEndsWith_append _ _ _ (by decide)]
  decide

/-- The report name never looks like a spec marker name. -/
theorem reportName_no_marker (p : String) :
    isSpecMarkerName (reportName p) = false := by
  unfold isSpecMarkerName reportName
  rw [strEndsWith_append _ _ _ (by decide), strEndsWith_append _ _ _ (by decide)]
  decide

/-- No write of a single pipeline run is a spec marker write. -/
theorem psfWrites_no_marker (p : String) (o : RunOutcome) :
    ∀ w ∈ psfWrites p o, isSpecMarkerName w = false := by
  intro w hw
  unfold psfWrites at hw
  rcases List.mem_append.mp hw with h | h
  · by_cases h5 : 5 ≤ stagesDone o
    · simp only [if_pos h5, List.mem_singleton] at h
      subst h; exact outputName_no_marker p
    · simp [if_neg h5] at h
  · by_cases h7 : 7 ≤ stagesDone o
    · simp only [if_pos h7, List.mem_singleton] at h
      subst h; exact reportName_no_marker p
    · simp [if_neg h7] at h

/-- The writes of a single run, extracted from its action trace. -/
theorem psf_writes_eq (p : String) (o : RunOutcome) :
    (process_single_file p o).filterMap actWrite = psfWrites p o := by
  unfold process_single_file
  rw [List.filterMap_cons]
  simp only [actWrite, List.filterMap_map]
  rw [show (actWrite ∘ PAct.writeFile) = some from rfl, List.filterMap_some]

/-- Config opens distribute over concatenated action traces. -/
theorem countConfigLoads_append (l1 l2 : List PAct) :
    countConfigLoads (l1 ++ l2) = countConfigLoads l1 + countConfigLoads l2 := by
  unfold countConfigLoads
  exact List.countP_append _ l1 l2

/-- Every single run opens the config file exactly once. -/
theorem countConfigLoads_psf (p : String) (o : RunOutcome) :
    countConfigLoads (process_single_file p o) = 1 := by
  unfold countConfigLoads process_single_file
  rw [List.countP_cons]
  have hz : List.countP (fun a => decide (a = PAct.openConfig))
      ((psfWrites p o).map PAct.writeFile) = 0 := by
    rw [List.countP_eq_zero]
    intro a ha
    rcases List.mem_map.mp ha with ⟨n, _, rfl⟩
    simp
  simp [hz]

/-- Combined characterization of the batch per-file loop: the counters are
the sizes of the raising and non-raising partitions of the listing, every
listed file is attempted (one config open each), and no write is a marker
write. -/
theorem batchRun_spec (oc : String → RunOutcome) (files : List String) :
    (batchRun oc files).successCount
        = (files.filter (fun f => psfRaises (oc f) = false)).length ∧
    (batchRun oc files).failCount
        = (files.filter (fun f => psfRaises (oc f) = true)).length ∧
    (batchRun oc files).successCount + (batchRun oc files).failCount
        = files.length ∧
    countConfigLoads (batchRun oc files).acts = files.length ∧
    ∀ w ∈ (batchRun oc files).acts.filterMap actWrite,
      isSpecMarkerName w = false := by
  induction files with
  | nil =>
      exact ⟨rfl, rfl, rfl, rfl, fun w hw => absurd hw (by simp [batchRun])⟩
  | cons f rest ih =>
      obtain ⟨ih1, ih2, ih3, ih4, ih5⟩ := ih
      have hacts : (batchRun oc (f :: rest)).acts
          = process_single_file f (oc f) ++ (batchRun oc rest).acts := by
        by_cases hr : psfRaises (oc f) = true <;> simp [batchRun, hr]
      have hload : countConfigLoads (batchRun oc (f :: rest)).acts
          = (f :: rest).length := by
        rw [hacts, countConfigLoads_append, countConfigLoads_psf, ih4,
          List.length_cons]
        omega
      have hmark : ∀ w ∈ (batchRun oc (f :: rest)).acts.filterMap actWrite,
          isSpecMarkerName w = false := by
        intro w hw
        rw [hacts, List.filterMap_append] at hw
        rcases List.mem_append.mp hw with h | h
        · rw [psf_writes_eq] at h
          exact psfWrites_no_marker f (oc f) w h
        · exact ih5 w h
      by_cases hr : psfRaises (oc f) = true
      · have hs : (batchRun oc (f :: rest)).successCount
            = (batchRun oc rest).successCount := by
          simp [batchRun, hr]
        have hfc : (batchRun oc (f :: rest)).failCount
            = (batchRun oc rest).failCount + 1 := by
          simp [batchRun, hr]
        refine ⟨?_, ?_, ?_, hload, hmark⟩
        · rw [hs, ih1]
          simp [List.filter_cons, hr]
        · rw [hfc, ih2]
          simp [List.filter_cons, hr]
        · rw [hs, hfc, List.length_cons]
          omega
      · have hf : psfRaises (oc f) = false := by
          revert hr; cases psfRaises (oc f) <;> simp
        have hs : (batchRun oc (f :: rest)).successCount
            = (batchRun oc rest).successCount + 1 := by
          simp [batchRun, hf]
        have hfc : (batchRun oc (f :: rest)).failCount
            = (batchRun oc rest).failCount := by
          simp [batchRun, hf]
        refine ⟨?_, ?_, ?_, hload, hmark⟩
        · rw [hs, ih1]
          simp [List.filter_cons, hf]
        · rw [hfc, ih2]
          simp [List.filter_cons, hf]
        · rw [hs, hfc, List.length_cons]
          omega

/-! ## Claim theorems -/

/-- C1 (counterexample): the claim that a file with an existing outcome
marker is skipped fails on the code.  With the success marker for
scan1.nii present in the output directory, a batch pass over scan1.nii
still performs two writes into the output directory, so reprocessing is
not a no-op and the marker is not consulted. -/
theorem C1_counterexample :
    specHasOutcome [specSuccessMarkerName "scan1.nii"] "scan1.nii" = true ∧
    batchWrites ["scan1.nii"] (fun _ => RunOutcome.ok)
      = ["scan1_skull_stripped.nii.gz", "scan1_quality_report.txt"] ∧
    batchWrites ["scan1.nii"] (fun _ => RunOutcome.ok) ≠ [] :=
  ⟨by decide, by decide, by decide⟩

/-- C1 (amended): the only skip gate is the in-memory pair of handler sets,
valid for one watcher process: an event for a path already in processing or
processed is dropped with no writes and no state change, while a batch pass
has no skip gate at all and attempts every recognized file of the listing
regardless of output directory contents. -/
theorem C1_theorem :
    (∀ (s : WatcherState) (e : Event) (o : RunOutcome),
        e.src_path ∈ s.processing ∨ e.src_path ∈ s.processed →
        (on_created s e o).state = s ∧ (on_created s e o).acts = []) ∧
    (∀ (listing : List String) (oc : String → RunOutcome),
        (batch_mode listing oc).successCount + (batch_mode listing oc).failCount
          = (listing.filter (fun p => matchesNiiGlob (pathName p))).length) := by
  constructor
  · intro s e o h
    unfold on_created
    split_ifs with h1 h2
    · exact ⟨rfl, rfl⟩
    · exact ⟨rfl, rfl⟩
    · exact ⟨rfl, rfl⟩
  · intro listing oc
    unfold batch_mode
    exact (batchRun_spec oc _).2.2.1

/-- C1 (witness): a concrete already-processed path is dropped by the
handler with zero writes. -/
theorem C1_witness :
    (on_created ⟨∅, {"b.nii"}⟩ ⟨"b.nii", false⟩ RunOutcome.ok).acts = [] :=
  (C1_theorem.1 ⟨∅, {"b.nii"}⟩ ⟨"b.nii", false⟩ RunOutcome.ok (by decide)).2

/-- C2 (counterexample): acquisition is not an atomic test-and-insert.
The membership test of line 43 and the insertion of line 51 are separate
steps with the sleep between them, so the interleaving that runs both
tests before either insertion lets both concurrent events for the same
path proceed to processing: two succeed, not exactly one. -/
theorem C2_counterexample :
    succCount (runSched "scan.nii" [false, true, false, true]
      ⟨⟨∅, ∅⟩, ThreadPhase.start, ThreadPhase.start⟩) = 2 ∧ (2 : Nat) ≠ 1 :=
  ⟨by decide, by decide⟩

/-- C2 (amended): when the two handler invocations for the same fresh path
are serialized, exactly one proceeds: the first passes the test and
inserts, and the second observes the membership and drops without any
mutation of the shared sets. -/
theorem C2_theorem (s : WatcherState) (p : String)
    (h1 : p ∉ s.processing) (h2 : p ∉ s.processed) :
    runSched p [false, false, true, true] ⟨s, ThreadPhase.start, ThreadPhase.start⟩
      = ⟨⟨insert p s.processing, s.processed⟩, ThreadPhase.running,
         ThreadPhase.dropped⟩ := by
  unfold runSched
  simp [List.foldl, schedStep, threadStep, h1, h2]

/-- C2 (witness): serialized acquisition on a concrete fresh path. -/
theorem C2_witness :
    runSched "a.nii" [false, false, true, true]
      ⟨⟨∅, ∅⟩, ThreadPhase.start, ThreadPhase.start⟩
      = ⟨⟨insert "a.nii" ∅, ∅⟩, ThreadPhase.running, ThreadPhase.dropped⟩ :=
  C2_theorem ⟨∅, ∅⟩ "a.nii" (by decide) (by decide)

/-- C3 (counterexample): the code has no size-polling readiness detector.
On a file whose size grows at every poll the detector described by the
claim must report a timeout, but the implemented wait is a fixed sleep
that reads no sizes and always proceeds. -/
theorem C3_counterexample :
    (watcherWait (fun i => i + 1)).2 = WaitResult.ready ∧
    specReadinessDetector (fun i => i + 1) 5 = WaitResult.timedOut ∧
    WaitResult.ready ≠ WaitResult.timedOut :=
  ⟨rfl, by decide, by decide⟩

/-- C3 (amended): the write-completion wait is an unconditional two second
sleep, independent of the file size trace, with no timeout verdict; inside
the handler it happens exactly when the path is accepted, before the
in-flight insertion. -/
theorem C3_theorem :
    (∀ sizes : Nat → Nat, watcherWait sizes = (2, WaitResult.ready)) ∧
    (∀ (s : WatcherState) (e : Event) (o : RunOutcome),
        (on_created s e o).trace.count HStep.wait
          = (on_created s e o).trace.count HStep.acquire ∧
        occursBefore HStep.wait HStep.acquire (on_created s e o).trace
          = (on_created s e o).trace.contains HStep.acquire) := by
  refine ⟨fun sizes => rfl, fun s e o => ?_⟩
  unfold on_created
  split_ifs <;> exact ⟨rfl, rfl⟩

/-- C4 (counterexample): a two file batch in which exactly one file fails a
stage completes with one success and one failure, but writes zero marker
files, not the one success marker and one error marker the claim requires. -/
theorem C4_counterexample :
    (batch_mode ["a.nii", "b.nii"]
        (fun f => if f = "a.nii" then RunOutcome.ok else RunOutcome.failAt 3)).successCount
      = 1 ∧
    (batch_mode ["a.nii", "b.nii"]
        (fun f => if f = "a.nii" then RunOutcome.ok else RunOutcome.failAt 3)).failCount
      = 1 ∧
    ((batchWrites ["a.nii", "b.nii"]
        (fun f => if f = "a.nii" then RunOutcome.ok else RunOutcome.failAt 3)).filter
          isSpecMarkerName).length = 0 ∧
    (0 : Nat) ≠ 1 :=
  ⟨by decide, by decide, by decide, by decide⟩

/-- C4 (amended): per-file failure isolation holds through the counters
instead of markers: a batch pass always completes, counting N minus k
successes and k failures over the recognized listing, and it writes no
outcome marker of any kind. -/
theorem C4_theorem (listing : List String) (oc : String → RunOutcome) :
    (batch_mode listing oc).successCount
        = ((listing.filter (fun p => matchesNiiGlob (pathName p))).filter
            (fun f => psfRaises (oc f) = false)).length ∧
    (batch_mode listing oc).failCount
        = ((listing.filter (fun p => matchesNiiGlob (pathName p))).filter
            (fun f => psfRaises (oc f) = true)).length ∧
    (batch_mode listing oc).successCount + (batch_mode listing oc).failCount
        = (listing.filter (fun p => matchesNiiGlob (pathName p))).length ∧
    ∀ w ∈ batchWrites listing oc, isSpecMarkerName w = false := by
  have h := batchRun_spec oc (listing.filter (fun p => matchesNiiGlob (pathName p)))
  exact ⟨h.1, h.2.1, h.2.2.1, fun w hw => h.2.2.2.2 w hw⟩

/-- C4 (witness): a concrete batch write is not a marker write. -/
theorem C4_witness :
    isSpecMarkerName "a_skull_stripped.nii.gz" = false := by
  have h := C4_theorem (List.replicate 1 "a.nii") (fun _ => RunOutcome.ok)
  exact h.2.2.2 "a_skull_stripped.nii.gz" (by decide)

/-- C5 (counterexample): artifact names are derived from the pathlib stem,
not from the full input name: for scan1.nii.gz the code writes
scan1.nii_skull_stripped.nii.gz and scan1.nii_quality_report.txt, not the
scan1.nii.gz prefixed names the claim states. -/
theorem C5_counterexample :
    outputName "scan1.nii.gz" = "scan1.nii_skull_stripped.nii.gz" ∧
    reportName "scan1.nii.gz" = "scan1.nii_quality_report.txt" ∧
    outputName "scan1.nii.gz" ≠ "scan1.nii.gz_skull_stripped.nii.gz" ∧
    reportName "scan1.nii.gz" ≠ "scan1.nii.gz_quality_report.txt" :=
  ⟨by decide, by decide, by decide, by decide⟩

/-- C5 (amended): naming is deterministic but stem-based: every successful
accepted run writes exactly the config open, the image at the stem of the
input name plus the fixed skull-stripped suffix (extension always .nii.gz),
and the report at the stem plus the fixed report suffix. -/
theorem C5_theorem (s : WatcherState) (e : Event) (h : acceptsEvent s e) :
    (on_created s e RunOutcome.ok).acts =
      [PAct.openConfig,
       PAct.writeFile (pyStem (pathName e.src_path) ++ "_skull_stripped.nii.gz"),
       PAct.writeFile (pyStem (pathName e.src_path) ++ "_quality_report.txt")] := by
  obtain ⟨h1, h2, h3⟩ := h
  unfold on_created
  rw [if_neg (by simp [h1]), if_neg (not_not_intro h2), if_neg h3,
    if_neg (by decide)]
  rfl

/-- C5 (witness): the accepted run for a concrete input writes the two
stem-derived artifact names. -/
theorem C5_witness :
    (on_created ⟨∅, ∅⟩ ⟨"scan1.nii.gz", false⟩ RunOutcome.ok).acts =
      [PAct.openConfig,
       PAct.writeFile (pyStem (pathName "scan1.nii.gz") ++ "_skull_stripped.nii.gz"),
       PAct.writeFile (pyStem (pathName "scan1.nii.gz") ++ "_quality_report.txt")] :=
  C5_theorem ⟨∅, ∅⟩ ⟨"scan1.nii.gz", false⟩ (by decide)

/-- C6 (counterexample): an errored file is retried.  A first event whose
run fails at the preprocess stage leaves the handler state exactly as it
started, so a second creation event for the same path reaches the pipeline
again and performs writes. -/
theorem C6_counterexample :
    (on_created ⟨∅, ∅⟩ ⟨"scan1.nii", false⟩ (RunOutcome.failAt 3)).state = ⟨∅, ∅⟩ ∧
    (on_created (on_created ⟨∅, ∅⟩ ⟨"scan1.nii", false⟩ (RunOutcome.failAt 3)).state
        ⟨"scan1.nii", false⟩ RunOutcome.ok).trace.contains HStep.runPipeline
      = true ∧
    (on_created (on_created ⟨∅, ∅⟩ ⟨"scan1.nii", false⟩ (RunOutcome.failAt 3)).state
        ⟨"scan1.nii", false⟩ RunOutcome.ok).acts ≠ [] :=
  ⟨by decide, by decide, by decide⟩

/-- C6 (amended): there are no durable error markers and no error-skip: a
failed accepted run restores the handler state exactly, so the same event
is processed again on redelivery; only a successful run records the path,
in memory, and only that makes a repeat event a dropped no-op. -/
theorem C6_theorem (s : WatcherState) (e : Event) (o o' : RunOutcome)
    (hacc : acceptsEvent s e) (hfail : psfRaises o = true) :
    (on_created s e o).state = s ∧
    (on_created (on_created s e o).state e o').trace.contains HStep.runPipeline
      = true ∧
    (on_created (on_created s e RunOutcome.ok).state e o').state
      = (on_created s e RunOutcome.ok).state ∧
    (on_created (on_created s e RunOutcome.ok).state e o').acts = [] := by
  obtain ⟨h1, h2, h3⟩ := hacc
  have hmem : e.src_path ∉ s.processing := fun hx => h3 (Or.inl hx)
  have hstate : (on_created s e o).state = s := by
    unfold on_created
    rw [if_neg (by simp [h1]), if_neg (not_not_intro h2), if_neg h3, if_pos hfail]
    show WatcherState.mk ((insert e.src_path s.processing).erase e.src_path)
        s.processed = s
    rw [Finset.erase_insert hmem]
  have hinner : (on_created s e RunOutcome.ok).state
      = ⟨s.processing, insert e.src_path s.processed⟩ := by
    unfold on_created
    rw [if_neg (by simp [h1]), if_neg (not_not_intro h2), if_neg h3,
      if_neg (by decide)]
    show WatcherState.mk ((insert e.src_path s.processing).erase e.src_path)
        (insert e.src_path s.processed) = _
    rw [Finset.erase_insert hmem]
  refine ⟨hstate, ?_, ?_, ?_⟩
  · rw [hstate]
    unfold on_created
    rw [if_neg (by simp [h1]), if_neg (not_not_intro h2), if_neg h3]
    by_cases hr : psfRaises o' = true
    · rw [if_pos hr]; rfl
    · rw [if_neg hr]; rfl
  · rw [hinner]
    unfold on_created
    rw [if_neg (by simp [h1]), if_neg (not_not_intro h2),
      if_pos (Or.inr (Finset.mem_insert_self e.src_path s.processed))]
  · rw [hinner]
    unfold on_created
    rw [if_neg (by simp [h1]), if_neg (not_not_intro h2),
      if_pos (Or.inr (Finset.mem_insert_self e.src_path s.processed))]

/-- C6 (witness): state restoration after a concrete failed run. -/
theorem C6_witness :
    (on_created ⟨∅, ∅⟩ ⟨"b.nii", false⟩ (RunOutcome.failAt 2)).state = ⟨∅, ∅⟩ :=
  (C6_theorem ⟨∅, ∅⟩ ⟨"b.nii", false⟩ (RunOutcome.failAt 2) RunOutcome.ok
    (by decide) (by decide)).1

/-- C7 (counterexample): the configuration is not loaded once at process
start: a batch pass over two files opens and parses the config file twice,
once inside each per-file run. -/
theorem C7_counterexample :
    countConfigLoads (batch_mode ["a.nii", "b.nii"] (fun _ => RunOutcome.ok)).acts
      = 2 ∧
    (2 : Nat) ≠ 1 ∧
    countConfigLoads (process_single_file "a.nii" RunOutcome.ok) = 1 :=
  ⟨by decide, by decide, by decide⟩

/-- C7 (amended): every per-file run opens the config file itself, as its
first action, so a batch pass performs exactly one config load per
recognized file; startup only checks that the config path exists and a
parse failure surfaces as that file's per-file failure. -/
theorem C7_theorem (listing : List String) (oc : String → RunOutcome) :
    countConfigLoads (batch_mode listing oc).acts
      = (listing.filter (fun p => matchesNiiGlob (pathName p))).length ∧
    ∀ (p : String) (o : RunOutcome),
      (process_single_file p o).head? = some PAct.openConfig := by
  refine ⟨?_, fun p o => rfl⟩
  unfold batch_mode
  exact (batchRun_spec oc _).2.2.2.1

/-- C8: for every handler invocation, the processing set is restored on
every exit path (the final processing set equals the initial one), release
happens exactly as often as acquire and at most once, and within the trace
the acquisition precedes the pipeline run, which precedes the release. -/
theorem C8_theorem (s : WatcherState) (e : Event) (o : RunOutcome) :
    (on_created s e o).state.processing = s.processing ∧
    (on_created s e o).trace.count HStep.release
        = (on_created s e o).trace.count HStep.acquire ∧
    (on_created s e o).trace.count HStep.acquire ≤ 1 ∧
    occursBefore HStep.acquire HStep.runPipeline (on_created s e o).trace
        = (on_created s e o).trace.contains HStep.runPipeline ∧
    occursBefore HStep.runPipeline HStep.release (on_created s e o).trace
        = (on_created s e o).trace.contains HStep.release := by
  by_cases h1 : e.is_directory = true
  · unfold on_created
    rw [if_pos h1]
    refine ⟨rfl, rfl, ?_, rfl, rfl⟩
    show List.count HStep.acquire [HStep.dirCheck] ≤ 1
    decide
  by_cases h2 : ¬ (pySfx (pathName e.src_path) = ".nii" ∨
      strEndsWith (pathName e.src_path) ".nii.gz" = true)
  · unfold on_created
    rw [if_neg h1, if_pos h2]
    refine ⟨rfl, rfl, ?_, rfl, rfl⟩
    show List.count HStep.acquire [HStep.dirCheck, HStep.extCheck] ≤ 1
    decide
  by_cases h3 : e.src_path ∈ s.processing ∨ e.src_path ∈ s.processed
  · unfold on_created
    rw [if_neg h1, if_neg h2, if_pos h3]
    refine ⟨rfl, rfl, ?_, rfl, rfl⟩
    show List.count HStep.acquire
      [HStep.dirCheck, HStep.extCheck, HStep.dupCheck] ≤ 1
    decide
  have hrestore : (insert e.src_path s.processing).erase e.src_path
      = s.processing :=
    Finset.erase_insert (fun hx => h3 (Or.inl hx))
  by_cases h4 : psfRaises o = true
  · unfold on_created
    rw [if_neg h1, if_neg h2, if_neg h3, if_pos h4]
    refine ⟨hrestore, rfl, ?_, rfl, rfl⟩
    show List.count HStep.acquire
      [HStep.dirCheck, HStep.extCheck, HStep.dupCheck, HStep.wait,
       HStep.acquire, HStep.runPipeline, HStep.release] ≤ 1
    decide
  · unfold on_created
    rw [if_neg h1, if_neg h2, if_neg h3, if_neg h4]
    refine ⟨hrestore, rfl, ?_, rfl, rfl⟩
    show List.count HStep.acquire
      [HStep.dirCheck, HStep.extCheck, HStep.dupCheck, HStep.wait,
       HStep.acquire, HStep.runPipeline, HStep.markDone, HStep.release] ≤ 1
    decide

/-- C9 (counterexample): for an accepted creation event the handler
executes the duplicate check before the readiness wait, not after it: in
the concrete trace the duplicate check occurs first. -/
theorem C9_counterexample :
    (on_created ⟨∅, ∅⟩ ⟨"scan1.nii", false⟩ RunOutcome.ok).trace
      = [HStep.dirCheck, HStep.extCheck, HStep.dupCheck, HStep.wait,
         HStep.acquire, HStep.runPipeline, HStep.markDone, HStep.release] ∧
    occursBefore HStep.wait HStep.dupCheck
        (on_created ⟨∅, ∅⟩ ⟨"scan1.nii", false⟩ RunOutcome.ok).trace = false ∧
    occursBefore HStep.dupCheck HStep.wait
        (on_created ⟨∅, ∅⟩ ⟨"scan1.nii", false⟩ RunOutcome.ok).trace = true :=
  ⟨by decide, by decide, by decide⟩

/-- C9 (amended): in every handler invocation whose trace reaches the
wait, the duplicate check against the in-memory sets comes first: the
check precedes the wait, never vice versa. -/
theorem C9_theorem (s : WatcherState) (e : Event) (o : RunOutcome) :
    occursBefore HStep.dupCheck HStep.wait (on_created s e o).trace
      = (on_created s e o).trace.contains HStep.wait := by
  unfold on_created
  split_ifs <;> rfl

/-- C10: for all metric inputs, with or without the optional mutual
information and Dice values, the assessment reports exactly five total
checks, its passed count is the number of true flags among the five base
checks, the overall verdict is pass exactly when at least four of the five
passed, and the optional checks never influence the overall verdict. -/
theorem C10_theorem (m : QCMetrics) (mi dice : Option ℚ) :
    (assess_quality m mi dice).total_checks = 5 ∧
    (assess_quality m mi dice).passed_checks
      = [(assess_quality m mi dice).coverage_ok,
         (assess_quality m mi dice).volume_ok,
         (assess_quality m mi dice).components_ok,
         (assess_quality m mi dice).edge_density_ok,
         (assess_quality m mi dice).intensity_ok].count true ∧
    ((assess_quality m mi dice).overall_pass = true ↔
        4 ≤ (assess_quality m mi dice).passed_checks) ∧
    (assess_quality m mi dice).overall_pass
      = (assess_quality m none none).overall_pass := by
  refine ⟨rfl, rfl, ?_, rfl⟩
  exact decide_eq_true_iff
